import Mathlib

/-!
Shallow embedding of the throttle-to-sound-and-telemetry engine of
`src/src/App.js` (a single React component).  JavaScript numbers are
modelled as rationals; `Math.round` as `jsRound`; the Web-Audio oscillator
and gain node as explicit record fields; the `useEffect` recomputation
(lines 24-42) as `recompute`, guarded by the dependency comparison that
React performs on `[throttle, isRunning, engineType]`.  A JavaScript
`TypeError` (reading a field of `undefined`) is modelled as `none`.
-/

namespace Eess

inductive Waveform
  | sawtooth
  | square
  | triangle
  deriving DecidableEq

/-- `EnginePreset` mirrors one entry of the `enginePresets` object
(App.js lines 18-22). -/
structure EnginePreset where
  baseFreq : ℚ
  maxFreq : ℚ
  wave : Waveform
  gain : ℚ
  deriving DecidableEq

/-- The `enginePresets` object lookup (App.js lines 18-22, used at line 26
and line 50): an unknown key yields `none` (JS `undefined`). -/
def enginePresets (name : String) : Option EnginePreset :=
  if name = "porsche" then some ⟨40, 2000, Waveform.sawtooth, 1/20⟩
  else if name = "ferrari" then some ⟨80, 4000, Waveform.square, 1/20⟩
  else if name = "mustang" then some ⟨50, 2500, Waveform.triangle, 7/100⟩
  else none

/-- One point of the `data` chart array: `{ index: tick, rpm, speed }`
(App.js line 38). -/
structure TelemetrySample where
  index : ℕ
  rpm : ℤ
  speed : ℤ
  deriving DecidableEq

/-- The oscillator node: its waveform type and the frequency parameter.
`smoothing = none` records an immediate `setValueAtTime`; `some τ` records
a `setTargetAtTime` glide with time constant `τ`. -/
structure Oscillator where
  wave : Waveform
  freqTarget : ℚ
  smoothing : Option ℚ
  deriving DecidableEq

/-- The gain node with its gain parameter (App.js lines 48, 60-63). -/
structure GainNode where
  gain : ℚ
  deriving DecidableEq

/-- The component state: the `useState` hooks (lines 10-15) plus the two
audio refs (lines 8-9), which are `none` until `startAudio` creates them. -/
structure AppState where
  isRunning : Bool
  frequency : ℤ
  throttle : ℚ
  data : List TelemetrySample
  tick : ℕ
  engineType : String
  osc : Option Oscillator
  gainNode : Option GainNode
  deriving DecidableEq

/-- Initial state from the `useState` initialisers (App.js lines 10-15). -/
def initState : AppState :=
  { isRunning := false, frequency := 40, throttle := 0, data := [],
    tick := 0, engineType := "porsche", osc := none, gainNode := none }

/-- JavaScript `Math.round`: round half toward positive infinity. -/
def jsRound (q : ℚ) : ℤ := ⌊q + 1/2⌋

/-- The frequency formula of App.js lines 27-28:
`preset.baseFreq + (preset.maxFreq - preset.baseFreq) * throttle`. -/
def currentFrequency (p : EnginePreset) (t : ℚ) : ℚ :=
  p.baseFreq + (p.maxFreq - p.baseFreq) * t

/-- `Math.min(1, Math.max(0, x))` (App.js line 74). -/
def clamp01 (q : ℚ) : ℚ := min 1 (max 0 q)

/-- The recomputation `useEffect` body (App.js lines 24-42).  When the
guard at line 25 holds, the preset is looked up (line 26); an unknown
`engineType` makes line 28 throw (`none`).  Otherwise the oscillator
frequency glides to the new value with time constant 0.05 (lines 29-33),
the displayed frequency is set to its rounding (line 34), the sample
`{index: tick, rpm, speed}` is appended after `prev.slice(-19)`
(lines 36-39), and `tick` is incremented (line 40). -/
def recompute (s : AppState) : Option AppState :=
  if s.isRunning ∧ s.osc.isSome ∧ s.gainNode.isSome then
    match enginePresets s.engineType with
    | some preset =>
        let newFreq := currentFrequency preset s.throttle
        some { s with
          osc := s.osc.map fun o =>
            { o with freqTarget := newFreq, smoothing := some (1/20) },
          frequency := jsRound newFreq,
          data := s.data.drop (s.data.length - 19) ++
            [{ index := s.tick, rpm := jsRound newFreq,
               speed := jsRound (newFreq / 100) }],
          tick := s.tick + 1 }
    | none => none
  else some s

/-- `startAudio` (App.js lines 44-68): when not running, create the
oscillator and gain node, set the waveform and base frequency
(`setValueAtTime`, no smoothing), set the gain, and flip `isRunning`.
An unknown `engineType` makes line 51 throw (`none`). -/
def startAudio (s : AppState) : Option AppState :=
  if s.isRunning then some s
  else
    match enginePresets s.engineType with
    | some preset =>
        some { s with
          isRunning := true,
          osc := some { wave := preset.wave, freqTarget := preset.baseFreq,
                        smoothing := none },
          gainNode := some { gain := preset.gain } }
    | none => none

/-- The dependency array `[throttle, isRunning, engineType]` of the
recomputation effect (App.js line 42). -/
def effectDeps (s : AppState) : ℚ × Bool × String :=
  (s.throttle, s.isRunning, s.engineType)

/-- React re-runs the effect only when the dependency array changed
between the renders `old` and `new`. -/
def runEffect (old new : AppState) : Option AppState :=
  if effectDeps new = effectDeps old then some new else recompute new

/-- The discrete inputs: a wheel event with its `deltaY`, the throttle
slider with its value, and the engine radio buttons with their value. -/
inductive InputEvent
  | wheel (deltaY : ℚ)
  | slider (value : ℚ)
  | selectEngine (name : String)

/-- The event handlers: `handleScroll` (App.js lines 70-76) adds ±0.02 by
scroll direction and clamps; the slider `onChange` (line 136) stores the
parsed value with no clamp; the radio `onChange` (lines 95, 105, 115)
stores the value string with no validation. -/
def applyHandler : InputEvent → AppState → AppState
  | .wheel d, s =>
      { s with throttle := clamp01 (s.throttle + if d < 0 then 1/50 else -(1/50)) }
  | .slider v, s => { s with throttle := v }
  | .selectEngine n, s => { s with engineType := n }

/-- One full input step: run the handler, then the recomputation effect
if its dependencies changed. -/
def step (e : InputEvent) (s : AppState) : Option AppState :=
  runEffect s (applyHandler e s)

/-- A Start-button click: `startAudio`, then the recomputation effect if
its dependencies changed. -/
def startOp (s : AppState) : Option AppState :=
  (startAudio s).bind fun s1 => runEffect s s1

/-- Fold a list of input events through their handlers (the recompute
effect never touches `throttle`, proved separately). -/
def applyEvents (es : List InputEvent) (s : AppState) : AppState :=
  es.foldl (fun t e => applyHandler e t) s

/-- Iterate `recompute` (peeling the last step). -/
def recomputeN : ℕ → AppState → Option AppState
  | 0, s => some s
  | n + 1, s => (recomputeN n s).bind recompute

/-- The state right after `startAudio` succeeds from `initState`:
running, porsche preset, empty history. -/
def runningState : AppState :=
  { isRunning := true, frequency := 40, throttle := 0, data := [],
    tick := 0, engineType := "porsche",
    osc := some { wave := Waveform.sawtooth, freqTarget := 40, smoothing := none },
    gainNode := some { gain := 1/20 } }

/-- The telemetry sample produced by the `n`-th recomputation of
`runningState` (throttle 0, porsche: frequency 40, speed 0). -/
def sampleAt (n : ℕ) : TelemetrySample := { index := n, rpm := 40, speed := 0 }

/-- The last chart point, i.e. the most recently appended sample. -/
def lastSample (s : AppState) : Option TelemetrySample := s.data.getLast?

/-- The chart array after `n` recomputations of `runningState`: the last
`min n 20` of the samples `0, …, n-1`. -/
def histAfter (n : ℕ) : List TelemetrySample :=
  ((List.range n).drop (n - 20)).map sampleAt

/-- `runningState` at full throttle. -/
def porscheFull : AppState := { runningState with throttle := 1 }

/-- A running state on the ferrari preset at half throttle, empty history. -/
def ferrariHalf : AppState :=
  { isRunning := true, frequency := 80, throttle := 1/2, data := [], tick := 0,
    engineType := "ferrari",
    osc := some { wave := Waveform.square, freqTarget := 80, smoothing := none },
    gainNode := some { gain := 1/20 } }

/-- The waveform currently set on the oscillator node, if any. -/
def oscWave (s : AppState) : Option Waveform := s.osc.map Oscillator.wave

/-- The gain currently set on the gain node, if any. -/
def gainLevel (s : AppState) : Option ℚ := s.gainNode.map GainNode.gain

/-- The state produced by a Start click from `initState`: the effect fires
once (its `isRunning` dependency changed) and appends the first sample. -/
def afterStartState : AppState :=
  { isRunning := true, frequency := 40, throttle := 0,
    data := [{ index := 0, rpm := 40, speed := 0 }], tick := 1,
    engineType := "porsche",
    osc := some { wave := Waveform.sawtooth, freqTarget := 40, smoothing := some (1/20) },
    gainNode := some { gain := 1/20 } }

/-- The state after selecting "mustang" while running `afterStartState`:
the recomputation fires on the changed dependency, gliding the frequency
to the mustang base 50, but the waveform and gain keep their start-time
porsche values. -/
def afterMustangState : AppState :=
  { isRunning := true, frequency := 50, throttle := 0,
    data := [{ index := 0, rpm := 40, speed := 0 }, { index := 1, rpm := 50, speed := 1 }],
    tick := 2, engineType := "mustang",
    osc := some { wave := Waveform.sawtooth, freqTarget := 50, smoothing := some (1/20) },
    gainNode := some { gain := 1/20 } }

/-! ## Helper lemmas -/

/-- Every preset in the table has `baseFreq < maxFreq`. -/
lemma enginePresets_base_lt_max {name : String} {p : EnginePreset}
    (h : enginePresets name = some p) : p.baseFreq < p.maxFreq := by
  unfold enginePresets at h
  split_ifs at h <;> (injection h with h; subst h; norm_num)

lemma clamp01_nonneg (q : ℚ) : 0 ≤ clamp01 q :=
  le_min (by norm_num) (le_max_left 0 q)

lemma clamp01_le_one (q : ℚ) : clamp01 q ≤ 1 := min_le_left 1 _

lemma clamp01_of_mem {q : ℚ} (h0 : 0 ≤ q) (h1 : q ≤ 1) : clamp01 q = q := by
  unfold clamp01
  rw [max_eq_right h0, min_eq_right h1]

/-- When the guard of the recomputation effect holds and the preset lookup
succeeds, `recompute` produces this explicit state. -/
lemma recompute_eq (s : AppState) (p : EnginePreset) (o : Oscillator)
    (g : GainNode) (hrun : s.isRunning = true) (hosc : s.osc = some o)
    (hgain : s.gainNode = some g) (hp : enginePresets s.engineType = some p) :
    recompute s = some { s with
      osc := some { o with
        freqTarget := currentFrequency p s.throttle,
        smoothing := some (1/20) },
      frequency := jsRound (currentFrequency p s.throttle),
      data := s.data.drop (s.data.length - 19) ++
        [{ index := s.tick, rpm := jsRound (currentFrequency p s.throttle),
           speed := jsRound (currentFrequency p s.throttle / 100) }],
      tick := s.tick + 1 } := by
  unfold recompute
  rw [hp]
  simp [hrun, hosc, hgain]

/-- `recompute` never changes `isRunning`. -/
lemma recompute_isRunning {s s' : AppState} (h : recompute s = some s') :
    s'.isRunning = s.isRunning := by
  unfold recompute at h
  split at h
  · cases hp : enginePresets s.engineType <;> rw [hp] at h
    · exact absurd h (by simp)
    · injection h with h; subst h; rfl
  · injection h with h; subst h; rfl

/-- `recompute` never changes `throttle`. -/
lemma recompute_throttle {s s' : AppState} (h : recompute s = some s') :
    s'.throttle = s.throttle := by
  unfold recompute at h
  split at h
  · cases hp : enginePresets s.engineType <;> rw [hp] at h
    · exact absurd h (by simp)
    · injection h with h; subst h; rfl
  · injection h with h; subst h; rfl

/-- Whatever `startAudio` returns is running. -/
lemma startAudio_isRunning {s s' : AppState} (h : startAudio s = some s') :
    s'.isRunning = true := by
  unfold startAudio at h
  split at h
  · injection h with h; subst h; assumption
  · cases hp : enginePresets s.engineType <;> rw [hp] at h
    · exact absurd h (by simp)
    · injection h with h; subst h; rfl

lemma runEffect_isRunning {s0 s s' : AppState} (h : runEffect s0 s = some s') :
    s'.isRunning = s.isRunning := by
  unfold runEffect at h
  split at h
  · injection h with h; subst h; rfl
  · exact recompute_isRunning h

/-- Whatever `startOp` returns is running. -/
lemma startOp_isRunning {s s' : AppState} (h : startOp s = some s') :
    s'.isRunning = true := by
  unfold startOp at h
  obtain ⟨s1, h1, h2⟩ := Option.bind_eq_some.mp h
  rw [runEffect_isRunning h2]
  exact startAudio_isRunning h1

/-- A `startOp` on a running state is a no-op. -/
lemma startOp_of_isRunning {s : AppState} (h : s.isRunning = true) :
    startOp s = some s := by
  unfold startOp startAudio runEffect
  simp [h]

lemma histAfter_length (n : ℕ) : (histAfter n).length = min n 20 := by
  unfold histAfter
  simp [List.length_drop]
  omega

/-- Appending sample `n` after `slice(-19)` slides the 20-sample window. -/
lemma histAfter_step (n : ℕ) :
    (histAfter n).drop ((histAfter n).length - 19) ++ [sampleAt n]
      = histAfter (n + 1) := by
  rw [histAfter_length]
  unfold histAfter
  rcases le_or_lt n 19 with h | h
  · have h1 : n - 20 = 0 := by omega
    have h2 : n + 1 - 20 = 0 := by omega
    have h3 : min n 20 - 19 = 0 := by omega
    rw [h1, h2, h3, List.drop_zero, List.drop_zero, List.drop_zero,
      List.range_succ, List.map_append]
    rfl
  · have h1 : min n 20 - 19 = 1 := by omega
    have h2 : n + 1 - 20 = n - 20 + 1 := by omega
    have h3 : n - 20 + 1 ≤ n := by omega
    rw [h1, List.map_drop, List.map_drop, List.drop_drop, h2,
      List.range_succ, List.map_append,
      List.drop_append_of_le_length (by simpa using h3)]
    rfl

lemma histAfter_map_index (n : ℕ) :
    (histAfter n).map TelemetrySample.index = (List.range n).drop (n - 20) := by
  unfold histAfter
  rw [List.map_map]
  have : TelemetrySample.index ∘ sampleAt = id := by
    funext i; rfl
  rw [this, List.map_id]

/-- Characterisation of `n` recomputations from `runningState`: the run
never throws, the counter equals `n`, and the history is the sliding
window of the last `min n 20` samples. -/
lemma recomputeN_runningState (n : ℕ) :
    ∃ s, recomputeN n runningState = some s ∧ s.isRunning = true ∧
      s.throttle = 0 ∧ s.engineType = "porsche" ∧ s.tick = n ∧
      s.data = histAfter n ∧ (∃ o, s.osc = some o) ∧ ∃ g, s.gainNode = some g := by
  induction n with
  | zero =>
      refine ⟨runningState, rfl, rfl, rfl, rfl, rfl, rfl, ⟨_, rfl⟩, ⟨_, rfl⟩⟩
  | succ n ih =>
      obtain ⟨s, hs, hrun, hthr, heng, htick, hdata, ⟨o, ho⟩, ⟨g, hg⟩⟩ := ih
      have hp : enginePresets s.engineType = some ⟨40, 2000, Waveform.sawtooth, 1/20⟩ := by
        rw [heng]; rfl
      have hfreq : currentFrequency ⟨40, 2000, Waveform.sawtooth, 1/20⟩ s.throttle = 40 := by
        rw [hthr]; norm_num [currentFrequency]
      have hstep := recompute_eq s _ o g hrun ho hg hp
      rw [hfreq] at hstep
      have hrec : recomputeN (n + 1) runningState = some { s with
          osc := some { o with freqTarget := 40, smoothing := some (1/20) },
          frequency := jsRound 40,
          data := s.data.drop (s.data.length - 19) ++
            [{ index := s.tick, rpm := jsRound 40, speed := jsRound (40 / 100) }],
          tick := s.tick + 1 } := by
        show (recomputeN n runningState).bind recompute = _
        rw [hs, Option.some_bind, hstep]
      refine ⟨_, hrec, hrun, hthr, heng, ?_, ?_, ⟨_, rfl⟩, ⟨g, hg⟩⟩
      · show s.tick + 1 = n + 1
        rw [htick]
      · show s.data.drop (s.data.length - 19) ++
          [{ index := s.tick, rpm := jsRound 40, speed := jsRound (40 / 100) }]
            = histAfter (n + 1)
        have hrpm : jsRound 40 = 40 := by norm_num [jsRound]
        have hspd : jsRound (40 / 100) = 0 := by norm_num [jsRound]
        rw [hrpm, hspd, htick, hdata]
        exact histAfter_step n

/-- Concrete evaluation: a Start click from `initState`. -/
lemma startOp_initState : startOp initState = some afterStartState := by
  simp only [startOp, startAudio, initState, enginePresets, runEffect, effectDeps,
    recompute, currentFrequency, jsRound, afterStartState, String.reduceEq, reduceIte]
  norm_num

/-- Concrete evaluation: selecting "mustang" right after starting. -/
lemma step_mustang :
    step (InputEvent.selectEngine "mustang") afterStartState = some afterMustangState := by
  simp only [step, applyHandler, runEffect, effectDeps, afterStartState, recompute,
    enginePresets, currentFrequency, jsRound, afterMustangState, String.reduceEq, reduceIte]
  norm_num
  decide

/-! ## Claim theorems -/

/-- C1: for every throttle value and every preset of the table, the
frequency computed on recomputation equals
`baseFreq + (maxFreq - baseFreq) * throttle`, and this function is
monotonically non-decreasing in the throttle over `[0,1]`. -/
theorem frequency_formula_monotone :
    ∀ name p, enginePresets name = some p →
      (∀ s o g, s.engineType = name → s.isRunning = true → s.osc = some o →
        s.gainNode = some g →
        ∃ s' o', recompute s = some s' ∧ s'.osc = some o' ∧
          o'.freqTarget = p.baseFreq + (p.maxFreq - p.baseFreq) * s.throttle ∧
          s'.frequency = jsRound (p.baseFreq + (p.maxFreq - p.baseFreq) * s.throttle))
      ∧ ∀ t1 t2, 0 ≤ t1 → t1 ≤ t2 → t2 ≤ 1 →
          currentFrequency p t1 ≤ currentFrequency p t2 := by
  intro name p hp
  constructor
  · intro s o g hname hrun hosc hgain
    have hp' : enginePresets s.engineType = some p := by rw [hname]; exact hp
    exact ⟨_, _, recompute_eq s p o g hrun hosc hgain hp', rfl, rfl, rfl⟩
  · intro t1 t2 h0 h12 h2
    have hbm := le_of_lt (enginePresets_base_lt_max hp)
    have hD : 0 ≤ p.maxFreq - p.baseFreq := by linarith
    have hmul := mul_le_mul_of_nonneg_left h12 hD
    unfold currentFrequency
    linarith

/-- Witness for C1 at the porsche preset and `runningState`. -/
theorem frequency_formula_monotone_witness :
    ∃ s' o', recompute runningState = some s' ∧ s'.osc = some o' ∧
      o'.freqTarget = 40 + (2000 - 40) * runningState.throttle ∧
      s'.frequency = jsRound (40 + (2000 - 40) * runningState.throttle) :=
  (frequency_formula_monotone "porsche" ⟨40, 2000, Waveform.sawtooth, 1/20⟩
    (by rfl)).1 runningState ⟨Waveform.sawtooth, 40, none⟩ ⟨1/20⟩ rfl rfl rfl rfl

/-- C3: one recomputation keeps the history length at most 20; the run from
`runningState` has history length `min n 20` after `n` recomputations and
carries the most recent sample indices; after 25 recomputations the
history is exactly the samples with indices 5..24. -/
theorem telemetry_history_bound :
    (∀ s s', recompute s = some s' → s.data.length ≤ 20 → s'.data.length ≤ 20)
    ∧ (∀ n, ∃ s, recomputeN n runningState = some s
        ∧ s.data.length = min n 20
        ∧ s.data.map TelemetrySample.index = (List.range n).drop (n - 20))
    ∧ (∀ n, 20 ≤ n → ∃ s, recomputeN n runningState = some s ∧ s.data.length = 20)
    ∧ ∃ s, recomputeN 25 runningState = some s
        ∧ s.data.length = 20
        ∧ s.data.map TelemetrySample.index = List.range' 5 20 := by
  have hrun : ∀ n, ∃ s, recomputeN n runningState = some s
      ∧ s.data.length = min n 20
      ∧ s.data.map TelemetrySample.index = (List.range n).drop (n - 20) := by
    intro n
    obtain ⟨s, hs, _, _, _, _, hdata, _, _⟩ := recomputeN_runningState n
    exact ⟨s, hs, by rw [hdata, histAfter_length], by rw [hdata]; exact histAfter_map_index n⟩
  refine ⟨?_, hrun, ?_, ?_⟩
  · intro s s' h hlen
    unfold recompute at h
    split at h
    · cases hp : enginePresets s.engineType <;> rw [hp] at h
      · exact absurd h (by simp)
      · injection h with h
        subst h
        simp only [List.length_append, List.length_drop, List.length_singleton]
        omega
    · injection h with h; subst h; exact hlen
  · intro n hn
    obtain ⟨s, hs, hlen, _⟩ := hrun n
    exact ⟨s, hs, by omega⟩
  · obtain ⟨s, hs, hlen, hidx⟩ := hrun 25
    refine ⟨s, hs, by omega, ?_⟩
    rw [hidx]
    decide

/-- Witness for C3: after 25 recomputations the history length is 20. -/
theorem telemetry_history_bound_witness :
    ∃ s, recomputeN 25 runningState = some s ∧ s.data.length = 20 :=
  telemetry_history_bound.2.2.1 25 (by norm_num)

/-- C4: the sample counter starts at 0, and every recomputation appends a
sample carrying the current counter value and increments the counter by
exactly 1, whether or not the append evicted an old sample. -/
theorem sample_index_increment :
    initState.tick = 0
    ∧ ∀ s p o g, s.isRunning = true → s.osc = some o → s.gainNode = some g →
        enginePresets s.engineType = some p →
        ∃ s', recompute s = some s' ∧ s'.tick = s.tick + 1
          ∧ ∃ last, s'.data.getLast? = some last ∧ last.index = s.tick := by
  refine ⟨rfl, ?_⟩
  intro s p o g hrun hosc hgain hp
  exact ⟨_, recompute_eq s p o g hrun hosc hgain hp, rfl,
    ⟨_, List.getLast?_concat _, rfl⟩⟩

/-- Witness for C4 at `runningState`. -/
theorem sample_index_increment_witness :
    ∃ s', recompute runningState = some s' ∧ s'.tick = runningState.tick + 1
      ∧ ∃ last, s'.data.getLast? = some last ∧ last.index = runningState.tick :=
  sample_index_increment.2 runningState ⟨40, 2000, Waveform.sawtooth, 1/20⟩
    ⟨Waveform.sawtooth, 40, none⟩ ⟨1/20⟩ rfl rfl rfl (by rfl)

/-- C5: `startOp` is idempotent — a second Start click after a successful
one changes nothing, and a Start click on a running state is a no-op. -/
theorem start_idempotent :
    (∀ s s', startOp s = some s' → startOp s' = some s')
    ∧ ∀ s, s.isRunning = true → startOp s = some s := by
  exact ⟨fun s s' h => startOp_of_isRunning (startOp_isRunning h),
    fun s h => startOp_of_isRunning h⟩

/-- Witness for C5: starting from `initState` and clicking Start twice. -/
theorem start_idempotent_witness :
    startOp initState = some afterStartState
    ∧ startOp afterStartState = some afterStartState :=
  ⟨startOp_initState, start_idempotent.1 initState afterStartState startOp_initState⟩

/-- C10: after a recomputation the newest chart sample's `rpm` equals the
displayed frequency; both are the rounding of the computed frequency. -/
theorem newest_sample_rpm_matches_display :
    ∀ s p o g, s.isRunning = true → s.osc = some o → s.gainNode = some g →
      enginePresets s.engineType = some p →
      ∃ s' last, recompute s = some s' ∧ s'.data.getLast? = some last
        ∧ last.rpm = s'.frequency
        ∧ s'.frequency = jsRound (currentFrequency p s.throttle) := by
  intro s p o g hrun hosc hgain hp
  exact ⟨_, _, recompute_eq s p o g hrun hosc hgain hp,
    List.getLast?_concat _, rfl, rfl⟩

/-- Witness for C10 at `ferrariHalf`. -/
theorem newest_sample_rpm_matches_display_witness :
    ∃ s' last, recompute ferrariHalf = some s' ∧ s'.data.getLast? = some last
      ∧ last.rpm = s'.frequency
      ∧ s'.frequency = jsRound (currentFrequency ⟨80, 4000, Waveform.square, 1/20⟩
          ferrariHalf.throttle) :=
  newest_sample_rpm_matches_display ferrariHalf ⟨80, 4000, Waveform.square, 1/20⟩
    ⟨Waveform.square, 80, none⟩ ⟨1/20⟩ rfl rfl rfl (by rfl)

/-- C2 counterexample: the slider handler stores its input without any
clamp — input 2 yields throttle 2, which differs from clamp(2,0,1) = 1 and
lies outside [0,1]. -/
theorem throttle_slider_unclamped_cx :
    (applyHandler (InputEvent.slider 2) initState).throttle = 2
    ∧ clamp01 2 = 1
    ∧ ¬ (applyHandler (InputEvent.slider 2) initState).throttle ≤ 1 := by
  refine ⟨rfl, by norm_num [clamp01], ?_⟩
  show ¬ (2 : ℚ) ≤ 1
  norm_num

/-- C2 (amended): a wheel update sets throttle to clamp(old ± 0.02, 0, 1)
with the sign given by scroll direction, hence stays in [0,1]; a slider
update stores its input unclamped, and equals clamp(input, 0, 1) exactly
when the input already lies in [0,1] (as the range element's min/max
enforce); recomputation never changes throttle; hence every event
sequence whose slider inputs lie in [0,1] keeps throttle in [0,1]. -/
theorem throttle_updates_clamped :
    (∀ s d, (applyHandler (InputEvent.wheel d) s).throttle
        = clamp01 (s.throttle + if d < 0 then 1/50 else -(1/50))
      ∧ 0 ≤ (applyHandler (InputEvent.wheel d) s).throttle
      ∧ (applyHandler (InputEvent.wheel d) s).throttle ≤ 1)
    ∧ (∀ s v, 0 ≤ v → v ≤ 1 →
        (applyHandler (InputEvent.slider v) s).throttle = clamp01 v)
    ∧ (∀ s s', recompute s = some s' → s'.throttle = s.throttle)
    ∧ ∀ es s, 0 ≤ s.throttle → s.throttle ≤ 1 →
        (∀ v, InputEvent.slider v ∈ es → 0 ≤ v ∧ v ≤ 1) →
        0 ≤ (applyEvents es s).throttle ∧ (applyEvents es s).throttle ≤ 1 := by
  refine ⟨fun s d => ⟨rfl, clamp01_nonneg _, clamp01_le_one _⟩,
    fun s v h0 h1 => (clamp01_of_mem h0 h1).symm,
    fun s s' h => recompute_throttle h, ?_⟩
  intro es
  induction es with
  | nil => exact fun s h0 h1 _ => ⟨h0, h1⟩
  | cons e es ih =>
      intro s h0 h1 hs
      have hmem : ∀ v, InputEvent.slider v ∈ es → 0 ≤ v ∧ v ≤ 1 :=
        fun v hv => hs v (List.mem_cons_of_mem _ hv)
      cases e with
      | wheel d => exact ih _ (clamp01_nonneg _) (clamp01_le_one _) hmem
      | slider v =>
          obtain ⟨hv0, hv1⟩ := hs v (List.mem_cons_self _ _)
          exact ih _ hv0 hv1 hmem
      | selectEngine n => exact ih _ h0 h1 hmem

/-- Witness for C2 (amended): a mixed event sequence from `initState`. -/
theorem throttle_updates_clamped_witness :
    0 ≤ (applyEvents [InputEvent.wheel (-3), InputEvent.slider (1/2),
        InputEvent.selectEngine "ferrari", InputEvent.wheel 3] initState).throttle
    ∧ (applyEvents [InputEvent.wheel (-3), InputEvent.slider (1/2),
        InputEvent.selectEngine "ferrari", InputEvent.wheel 3] initState).throttle ≤ 1 := by
  refine throttle_updates_clamped.2.2.2 _ initState (le_refl 0) (by norm_num [initState]) ?_
  intro v hv
  simp only [List.mem_cons, List.not_mem_nil, or_false] at hv
  rcases hv with h | h | h | h <;> first
    | (injection h with h; subst h; norm_num)
    | exact absurd h (by simp)

/-- C6 counterexample: an identifier outside the preset table is accepted
by the engine selector — the prior selection "porsche" is replaced by
"toyota" with no rejection, although the table has no such preset. -/
theorem selectPreset_accepts_unknown_cx :
    (step (InputEvent.selectEngine "toyota") initState).map AppState.engineType
      = some "toyota"
    ∧ initState.engineType = "porsche"
    ∧ enginePresets "toyota" = none
    ∧ ("toyota" : String) ≠ "porsche" := by
  refine ⟨?_, rfl, by simp [enginePresets], by simp⟩
  simp [step, applyHandler, runEffect, effectDeps, initState, recompute]

/-- C6 (amended): the selector stores any identifier, replacing the prior
selection without validation; an identifier outside the table maps to no
preset, and a recomputation while running with it throws instead of
silently defaulting to another preset. -/
theorem selectPreset_no_silent_default :
    (∀ name s, (applyHandler (InputEvent.selectEngine name) s).engineType = name)
    ∧ (∀ name, enginePresets name = none ↔
        ¬ (name = "porsche" ∨ name = "ferrari" ∨ name = "mustang"))
    ∧ ∀ name s, enginePresets name = none → s.isRunning = true →
        s.osc.isSome → s.gainNode.isSome → s.engineType ≠ name →
        step (InputEvent.selectEngine name) s = none := by
  refine ⟨fun name s => rfl, ?_, ?_⟩
  · intro name
    unfold enginePresets
    split_ifs <;> simp_all
  · intro name s hnone hrun hosc hgain hne
    unfold step runEffect applyHandler effectDeps
    rw [if_neg ?hne]
    case hne =>
      intro h
      exact hne (congrArg (fun t => t.2.2) h).symm
    unfold recompute
    rw [if_pos (by simp [hrun, hosc, hgain]), show enginePresets name = none from hnone]

/-- Witness for C6 (amended): selecting "toyota" while running throws. -/
theorem selectPreset_no_silent_default_witness :
    step (InputEvent.selectEngine "toyota") runningState = none :=
  selectPreset_no_silent_default.2.2 "toyota" runningState
    (by simp [enginePresets]) rfl rfl rfl (by simp [runningState])

/-- C7: while not running, a wheel or slider update stores the throttle
but leaves the displayed frequency, history, counter, selection and audio
nodes untouched — the recomputation effect's guard blocks. -/
theorem setThrottle_idle_frame :
    ∀ s e, s.isRunning = false →
      ((∃ d, e = InputEvent.wheel d) ∨ ∃ v, e = InputEvent.slider v) →
      step e s = some (applyHandler e s)
      ∧ (applyHandler e s).isRunning = s.isRunning
      ∧ (applyHandler e s).frequency = s.frequency
      ∧ (applyHandler e s).data = s.data
      ∧ (applyHandler e s).tick = s.tick
      ∧ (applyHandler e s).engineType = s.engineType
      ∧ (applyHandler e s).osc = s.osc
      ∧ (applyHandler e s).gainNode = s.gainNode := by
  intro s e hrun he
  rcases he with ⟨d, rfl⟩ | ⟨v, rfl⟩ <;>
    · refine ⟨?_, rfl, rfl, rfl, rfl, rfl, rfl, rfl⟩
      unfold step runEffect
      split
      · rfl
      · simp [recompute, applyHandler, hrun]

/-- Witness for C7: a wheel tick on `initState`. -/
theorem setThrottle_idle_frame_witness :
    step (InputEvent.wheel 3) initState
      = some (applyHandler (InputEvent.wheel 3) initState)
    ∧ (applyHandler (InputEvent.wheel 3) initState).data = initState.data :=
  ⟨(setThrottle_idle_frame initState _ rfl (Or.inl ⟨3, rfl⟩)).1,
   (setThrottle_idle_frame initState _ rfl (Or.inl ⟨3, rfl⟩)).2.2.2.1⟩

/-- C8 counterexample: after starting on porsche and selecting mustang, the
triggered recomputation leaves the oscillator waveform at sawtooth and the
gain at 0.05, although the mustang preset has triangle and 0.07 — waveform
and gain are not updated on recomputation. -/
theorem audio_params_not_updated_cx :
    ((startOp initState).bind (step (InputEvent.selectEngine "mustang"))).map oscWave
      = some (some Waveform.sawtooth)
    ∧ ((startOp initState).bind (step (InputEvent.selectEngine "mustang"))).map gainLevel
      = some (some (1/20))
    ∧ (enginePresets "mustang").map EnginePreset.wave = some Waveform.triangle
    ∧ (enginePresets "mustang").map EnginePreset.gain = some (7/100)
    ∧ Waveform.sawtooth ≠ Waveform.triangle
    ∧ ((1 : ℚ)/20) ≠ 7/100 := by
  rw [startOp_initState, Option.some_bind, step_mustang]
  exact ⟨rfl, by norm_num [afterMustangState, gainLevel],
    by simp [enginePresets], by simp [enginePresets], by simp, by norm_num⟩

/-- C8 (amended): waveform, frequency and gain are all issued once at
`startAudio`; a recomputation updates only the frequency target (with
smoothing time constant 0.05), keeping the waveform and the gain as they
were. -/
theorem audio_params_start_vs_recompute :
    (∀ s p, s.isRunning = false → enginePresets s.engineType = some p →
      ∃ s', startAudio s = some s'
        ∧ s'.osc = some { wave := p.wave, freqTarget := p.baseFreq, smoothing := none }
        ∧ s'.gainNode = some { gain := p.gain })
    ∧ ∀ s p o g, s.isRunning = true → s.osc = some o → s.gainNode = some g →
        enginePresets s.engineType = some p →
        ∃ s', recompute s = some s'
          ∧ s'.osc = some { o with
              freqTarget := currentFrequency p s.throttle,
              smoothing := some (1/20) }
          ∧ s'.gainNode = some g := by
  constructor
  · intro s p hrun hp
    unfold startAudio
    rw [if_neg (by simp [hrun]), hp]
    exact ⟨_, rfl, rfl, rfl⟩
  · intro s p o g hrun hosc hgain hp
    exact ⟨_, recompute_eq s p o g hrun hosc hgain hp, rfl, hgain⟩

/-- Witness for C8 (amended) at `initState`. -/
theorem audio_params_start_vs_recompute_witness :
    ∃ s', startAudio initState = some s'
      ∧ s'.osc = some { wave := Waveform.sawtooth, freqTarget := 40, smoothing := none }
      ∧ s'.gainNode = some { gain := 1/20 } :=
  audio_params_start_vs_recompute.1 initState ⟨40, 2000, Waveform.sawtooth, 1/20⟩
    rfl (by rfl)

/-- C9: the three spec scenarios — porsche at throttle 0 gives frequency
40, rpm 40, speed 0; porsche at throttle 1 gives 2000, 2000, 20; ferrari
at throttle 0.5 gives 2040, 2040, 20. -/
theorem preset_scenarios :
    (enginePresets "porsche").map EnginePreset.baseFreq = some 40
    ∧ (enginePresets "porsche").map EnginePreset.maxFreq = some 2000
    ∧ (enginePresets "ferrari").map EnginePreset.baseFreq = some 80
    ∧ (enginePresets "ferrari").map EnginePreset.maxFreq = some 4000
    ∧ (recompute runningState).map AppState.frequency = some 40
    ∧ (recompute runningState).bind lastSample = some { index := 0, rpm := 40, speed := 0 }
    ∧ (recompute porscheFull).map AppState.frequency = some 2000
    ∧ (recompute porscheFull).bind lastSample = some { index := 0, rpm := 2000, speed := 20 }
    ∧ (recompute ferrariHalf).map AppState.frequency = some 2040
    ∧ (recompute ferrariHalf).bind lastSample = some { index := 0, rpm := 2040, speed := 20 } := by
  refine ⟨by simp [enginePresets], by simp [enginePresets], by simp [enginePresets],
    by simp [enginePresets], ?_, ?_, ?_, ?_, ?_, ?_⟩ <;>
    · simp only [recompute, runningState, porscheFull, ferrariHalf, enginePresets,
        currentFrequency, jsRound, lastSample, String.reduceEq, reduceIte]
      norm_num [List.getLast?]

end Eess
